import Mathlib

/-!
# Verification of the provisioning orchestrator and chat endpoint

Shallow embedding of the configuration-discovery logic of
`deployment/hooks/preprovision.ps1` (tenant resolution, AI Foundry resource /
project / agent discovery, azd environment persistence, and `.env` file
emission) and of the request validation of the chat endpoint in
`server/index.js`.

Console formatting, transcript logging, and the RBAC permission probe (which
only prints warnings and never changes control flow) are omitted; every
branch that decides which values are read, selected, persisted or emitted is
modelled.
-/

/-- .NET `String.Trim()`: strip leading and trailing whitespace. (Core's
`String.trim` is extensionally the same but does not kernel-reduce, so the
list-of-characters form is used.) -/
def psTrim (s : String) : String :=
  ⟨((s.data.dropWhile Char.isWhitespace).reverse.dropWhile Char.isWhitespace).reverse⟩

/-- `[string]::IsNullOrWhiteSpace` on a present string: every character is
whitespace (this includes the empty string). -/
def isBlankStr (s : String) : Bool := s.data.all Char.isWhitespace

/-- PowerShell `[string]::IsNullOrWhiteSpace` applied to an azd value.
An unset key (the `azd env get-value` pipeline yields `$null`) is `none`. -/
def isBlank : Option String → Bool
  | none => true
  | some s => isBlankStr s

/-- Lower-casing for the case-insensitive comparison below. -/
def psLower (s : String) : String := ⟨s.data.map Char.toLower⟩

/-- PowerShell string `-eq`, which compares case-insensitively. -/
def psEq (a b : String) : Bool := psLower a == psLower b

/-- .NET `Split(sep)` on the character list: no empty-entry removal. -/
def splitOnChar (sep : Char) : List Char → List (List Char)
  | [] => [[]]
  | c :: cs =>
    match splitOnChar sep cs with
    | g :: gs => if c = sep then [] :: g :: gs else (c :: g) :: gs
    | [] => if c = sep then [[], []] else [[c]]

/-- `$selectedProject.name.Split('/')[-1]` (preprovision.ps1 line 316). -/
def lastSegment (s : String) : String :=
  ⟨(splitOnChar '/' s.data).getLast?.getD []⟩

/-- A discovered AI Foundry resource
(`az cognitiveservices account list --query "[?kind=='AIServices']"`). -/
structure ResourceCandidate where
  name : String
  resourceGroup : String
  location : String
  id : String
deriving Repr, DecidableEq

/-- A project of a resource (`az rest` on the `/projects` management URL). -/
structure ProjectCandidate where
  name : String
deriving Repr, DecidableEq

/-- An agent returned by `modules/Get-AIFoundryAgents.ps1`. -/
structure AgentDescriptor where
  name : String
deriving Repr, DecidableEq

/-- The azd environment keys read or written by the hook. -/
inductive AzdKey
  | ENTRA_TENANT_ID
  | ENTRA_SPA_CLIENT_ID
  | AI_FOUNDRY_RESOURCE_GROUP
  | AI_FOUNDRY_RESOURCE_NAME
  | AI_AGENT_ENDPOINT
  | AI_AGENT_ID
deriving Repr, DecidableEq

/-- The azd environment's durable key/value store (the ConfigStore). -/
def ConfigStore : Type := AzdKey → Option String

/-- `azd env get-value <key>` with the script's `-notmatch 'ERROR'` filter:
a missing key produces `none`. -/
def azdEnvGetValue (s : ConfigStore) (k : AzdKey) : Option String := s k

/-- `azd env set <key> <value>`. The script never inspects the exit status of
this command, so a failing write (`fails k = true`) leaves the store
unchanged and is not observable to the script. -/
def azdEnvSet (s : ConfigStore) (fails : AzdKey → Bool) (k : AzdKey) (v : String) :
    ConfigStore :=
  if fails k then s else fun q => if q = k then some v else s q

/-- Result of `Select-Index` (preprovision.ps1 lines 69–122): the host either
supplies a choice (`PromptForChoice` / `Read-Host`, validated to be in range)
or the function returns `-1` (`none`) on a non-interactive host. -/
def selectIndex (count : Nat) (hostChoice : Option Nat) : Option Nat :=
  match hostChoice with
  | some i => if i < count then some i else none
  | none => none

/-- Candidates matching the configured `AI_FOUNDRY_RESOURCE_NAME` hint
(lines 246–257): a blank hint matches nothing, otherwise the hint is trimmed
and compared to each candidate's name with `-eq`. -/
def nameMatches (cands : List ResourceCandidate) (configuredName : Option String) :
    List ResourceCandidate :=
  if isBlank configuredName then []
  else cands.filter fun r => psEq r.name (psTrim (configuredName.getD ""))

/-- Candidates matching the configured `AI_FOUNDRY_RESOURCE_GROUP` hint
(lines 259–269). -/
def groupMatches (cands : List ResourceCandidate) (configuredGroup : Option String) :
    List ResourceCandidate :=
  if isBlank configuredGroup then []
  else cands.filter fun r => psEq r.resourceGroup (psTrim (configuredGroup.getD ""))

/-- Outcome of resource selection. `fallbackWarned` records the
"Unable to prompt for selection (non-interactive host)" warning path. -/
inductive SelectResult
  | notFound
  | selected (r : ResourceCandidate) (fallbackWarned : Bool)
deriving Repr, DecidableEq

/-- The resource Selector (preprovision.ps1 lines 215–289): zero candidates
fail; a single candidate is taken unconditionally; otherwise the configured
name hint (first match wins when at least one matches), then the configured
group hint (only a unique match wins), then the interactive prompt, and on a
non-interactive host the deterministic fall back to the first candidate with
a warning. -/
def selectResource (cands : List ResourceCandidate)
    (configuredName configuredGroup : Option String) (hostChoice : Option Nat) :
    SelectResult :=
  match cands with
  | [] => .notFound
  | [r] => .selected r false
  | r0 :: r1 :: rest =>
    match nameMatches (r0 :: r1 :: rest) configuredName with
    | m :: _ => .selected m false
    | [] =>
      match groupMatches (r0 :: r1 :: rest) configuredGroup with
      | [m] => .selected m false
      | _ =>
        match selectIndex (r0 :: r1 :: rest).length hostChoice with
        | some i => .selected (((r0 :: r1 :: rest).get? i).getD r0) false
        | none => .selected r0 true

/-- Why the hook exited with code 1. -/
inductive FailReason
  | tenantUnresolved
  | appRegistrationFailed
  | resourcesNotFound
  | projectsNotFound
  | agentNotConfigured
deriving Repr, DecidableEq

/-- Observable outcome of one hook run: exit code, final store, which
discovery calls were made, and the emitted files (as parsed key/value maps;
`none` when the run exits before emission). -/
structure RunOutput where
  exitCode : Nat
  store : ConfigStore
  failReason : Option FailReason
  resourceListed : Bool
  projectsListed : Bool
  agentsListed : Bool
  azdEnvFile : Option (List (String × String))
  frontendEnvFile : Option (List (String × String))
  backendEnvFile : Option (List (String × String))

/-- Inputs of one hook run: the persisted store, which store writes fail,
the CLI account's tenant, the client id returned by
`modules/New-EntraAppRegistration.ps1` (`""` models the falsy failure at line
145), the provider's catalog, the interactive channel, and the preexisting
contents of the three output files. `existingFrontendEnv` and
`existingBackendEnv` are recorded because those two files are overwritten
with `Out-File -Force` without ever being read. -/
structure Inputs where
  store : ConfigStore
  writeFails : AzdKey → Bool
  accountTenantId : String
  clientId : String
  resources : List ResourceCandidate
  projectsOf : String → List ProjectCandidate
  agentsOf : String → Option (List AgentDescriptor)
  hostChoice : Option Nat
  existingAzdEnv : List (String × String)
  existingFrontendEnv : List (String × String)
  existingBackendEnv : List (String × String)

/-- First-match lookup in a parsed key=value file. -/
def fileGet : List (String × String) → String → Option String
  | [], _ => none
  | (k0, v0) :: rest, k => if k0 = k then some v0 else fileGet rest k

/-- Hashtable update `$existingVars[$key] = $value`: replace the first
occurrence or append. -/
def fileSet : List (String × String) → String → String → List (String × String)
  | [], k, v => [(k, v)]
  | (k0, v0) :: rest, k, v =>
    if k0 = k then (k0, v) :: rest else (k0, v0) :: fileSet rest k v

/-- The `foreach ($line in Get-Content $envFilePath)` parse loop
(lines 423–430) applied to the already-split key/value lines. -/
def buildTable (lines : List (String × String)) : List (String × String) :=
  lines.foldl (fun t kv => fileSet t kv.1 kv.2) []

/-- `if (-not [string]::IsNullOrWhiteSpace($v)) { $existingVars[$k] = $v }`
(lines 436–447). -/
def setIfPresent (t : List (String × String)) (k : String) (v : Option String) :
    List (String × String) :=
  if isBlank v then t else fileSet t k (v.getD "")

/-- The six keys the azd `.env` emitter manages (lines 433–447). -/
def managedAzdKeys : List String :=
  ["ENTRA_SPA_CLIENT_ID", "ENTRA_TENANT_ID", "AI_AGENT_ENDPOINT",
   "AI_AGENT_ID", "AI_FOUNDRY_RESOURCE_GROUP", "AI_FOUNDRY_RESOURCE_NAME"]

/-- Emission of `.azure/<env>/.env` (lines 409–457): parse the existing file,
overwrite the managed keys with the freshly re-read store values, keep
everything else. The sorted line ordering of the written file is
presentational and not modelled. -/
def emitAzdEnv (existing : List (String × String)) (clientId tenantId : String)
    (s : ConfigStore) : List (String × String) :=
  let t0 := buildTable existing
  let t1 := fileSet t0 "ENTRA_SPA_CLIENT_ID" clientId
  let t2 := fileSet t1 "ENTRA_TENANT_ID" tenantId
  let t3 := setIfPresent t2 "AI_AGENT_ENDPOINT" (azdEnvGetValue s AzdKey.AI_AGENT_ENDPOINT)
  let t4 := setIfPresent t3 "AI_AGENT_ID" (azdEnvGetValue s AzdKey.AI_AGENT_ID)
  let t5 := setIfPresent t4 "AI_FOUNDRY_RESOURCE_GROUP"
    (azdEnvGetValue s AzdKey.AI_FOUNDRY_RESOURCE_GROUP)
  setIfPresent t5 "AI_FOUNDRY_RESOURCE_NAME"
    (azdEnvGetValue s AzdKey.AI_FOUNDRY_RESOURCE_NAME)

/-- Emission of `frontend/.env.local` (lines 459–469): the file is written
from scratch, ignoring any previous contents. -/
def emitFrontendEnv (clientId tenantId : String) : List (String × String) :=
  [("VITE_ENTRA_SPA_CLIENT_ID", clientId), ("VITE_ENTRA_TENANT_ID", tenantId)]

/-- PowerShell interpolation of a possibly-`$null` value. -/
def orEmptyStr (v : Option String) : String := v.getD ""

/-- Emission of `backend/WebApp.Api/.env` (lines 471–493): written from
scratch from the re-read store values, ignoring any previous contents. -/
def emitBackendEnv (clientId tenantId : String) (s : ConfigStore) :
    List (String × String) :=
  [("AzureAd__Instance", "https://login.microsoftonline.com/"),
   ("AzureAd__TenantId", tenantId),
   ("AzureAd__ClientId", clientId),
   ("AzureAd__Audience", "api://" ++ clientId),
   ("AI_AGENT_ENDPOINT", orEmptyStr (azdEnvGetValue s AzdKey.AI_AGENT_ENDPOINT)),
   ("AI_AGENT_ID", orEmptyStr (azdEnvGetValue s AzdKey.AI_AGENT_ID))]

/-- A run that reached `exit 1` before any file emission. -/
def failOut (s : ConfigStore) (r : FailReason)
    (resourceListed projectsListed agentsListed : Bool) : RunOutput :=
  { exitCode := 1, store := s, failReason := some r,
    resourceListed := resourceListed, projectsListed := projectsListed,
    agentsListed := agentsListed,
    azdEnvFile := none, frontendEnvFile := none, backendEnvFile := none }

/-- A run that reached the emission section (lines 409–510) and exits 0. -/
def successOut (inp : Inputs) (tenantId : String) (s : ConfigStore)
    (resourceListed projectsListed agentsListed : Bool) : RunOutput :=
  { exitCode := 0, store := s, failReason := none,
    resourceListed := resourceListed, projectsListed := projectsListed,
    agentsListed := agentsListed,
    azdEnvFile := some (emitAzdEnv inp.existingAzdEnv inp.clientId tenantId s),
    frontendEnvFile := some (emitFrontendEnv inp.clientId tenantId),
    backendEnvFile := some (emitBackendEnv inp.clientId tenantId s) }

/-- Tenant resolution (lines 41–58): a configured, non-blank
`ENTRA_TENANT_ID` wins (trimmed); otherwise the CLI account's tenant is used
and saved, and a falsy account tenant aborts the run. -/
def tenantStep (inp : Inputs) : Option (String × ConfigStore) :=
  let t := azdEnvGetValue inp.store AzdKey.ENTRA_TENANT_ID
  if isBlank t then
    if inp.accountTenantId == "" then none
    else some (inp.accountTenantId,
      azdEnvSet inp.store inp.writeFails AzdKey.ENTRA_TENANT_ID inp.accountTenantId)
  else some (psTrim (t.getD ""), inp.store)

/-- Fast-path agent discovery (lines 193–208): a discovery error or an empty
agent list is silently tolerated; otherwise the first agent is saved. -/
def fastAgentStep (inp : Inputs) (endpoint : String) (s : ConfigStore) : ConfigStore :=
  match inp.agentsOf endpoint with
  | none => s
  | some [] => s
  | some (a :: _) => azdEnvSet s inp.writeFails AzdKey.AI_AGENT_ID a.name

/-- The pre-configured fast path (lines 166–209): no resource or project
discovery; agent discovery only when `AI_AGENT_ID` is blank. -/
def fastFlow (inp : Inputs) (tenantId : String) (s : ConfigStore) (endpoint : String) :
    RunOutput :=
  if isBlank (azdEnvGetValue s AzdKey.AI_AGENT_ID) then
    successOut inp tenantId (fastAgentStep inp endpoint s) false false true
  else
    successOut inp tenantId s false false false

/-- The discovery path (lines 210–407): list resources, select one, take the
first project, derive and persist the endpoint, then resolve the agent. The
final agent check (line 389) tests the in-memory `$aiAgentId` variable, so a
failed `azd env set` of the agent id does not fail the run. -/
def discoveryFlow (inp : Inputs) (tenantId : String) (s : ConfigStore) : RunOutput :=
  match selectResource inp.resources
      (azdEnvGetValue s AzdKey.AI_FOUNDRY_RESOURCE_NAME)
      (azdEnvGetValue s AzdKey.AI_FOUNDRY_RESOURCE_GROUP) inp.hostChoice with
  | .notFound => failOut s .resourcesNotFound true false false
  | .selected r _ =>
    match inp.projectsOf r.id with
    | [] => failOut s .projectsNotFound true true false
    | p :: _ =>
      let projectName := lastSegment p.name
      let aiEndpoint :=
        "https://" ++ r.name ++ ".services.ai.azure.com/api/projects/" ++ projectName
      let s1 := azdEnvSet s inp.writeFails AzdKey.AI_FOUNDRY_RESOURCE_GROUP r.resourceGroup
      let s2 := azdEnvSet s1 inp.writeFails AzdKey.AI_FOUNDRY_RESOURCE_NAME r.name
      let s3 := azdEnvSet s2 inp.writeFails AzdKey.AI_AGENT_ENDPOINT aiEndpoint
      if isBlank (azdEnvGetValue s3 AzdKey.AI_AGENT_ID) then
        match inp.agentsOf aiEndpoint with
        | none => failOut s3 .agentNotConfigured true true true
        | some [] => failOut s3 .agentNotConfigured true true true
        | some (a :: _) =>
          successOut inp tenantId
            (azdEnvSet s3 inp.writeFails AzdKey.AI_AGENT_ID a.name) true true true
      else
        successOut inp tenantId s3 true true false

/-- One run of the preprovision hook (lines 41–510): resolve the tenant,
persist the client id, then either take the pre-configured fast path (all of
endpoint, resource group and resource name non-blank) or run discovery, and
finally emit the three configuration files. -/
def preprovision (inp : Inputs) : RunOutput :=
  match tenantStep inp with
  | none => failOut inp.store .tenantUnresolved false false false
  | some (tenantId, s1) =>
    if inp.clientId == "" then failOut s1 .appRegistrationFailed false false false
    else
      let s2 := azdEnvSet s1 inp.writeFails AzdKey.ENTRA_SPA_CLIENT_ID inp.clientId
      let eEndpoint := azdEnvGetValue s2 AzdKey.AI_AGENT_ENDPOINT
      let eGroup := azdEnvGetValue s2 AzdKey.AI_FOUNDRY_RESOURCE_GROUP
      let eName := azdEnvGetValue s2 AzdKey.AI_FOUNDRY_RESOURCE_NAME
      if !isBlank eEndpoint && !isBlank eGroup && !isBlank eName then
        fastFlow inp tenantId s2 (eEndpoint.getD "")
      else
        discoveryFlow inp tenantId s2

/-- The six well-known resolved configuration values as persisted. -/
def resolvedConfig (s : ConfigStore) : List (Option String) :=
  [s AzdKey.ENTRA_SPA_CLIENT_ID, s AzdKey.ENTRA_TENANT_ID,
   s AzdKey.AI_FOUNDRY_RESOURCE_GROUP, s AzdKey.AI_FOUNDRY_RESOURCE_NAME,
   s AzdKey.AI_AGENT_ENDPOINT, s AzdKey.AI_AGENT_ID]

/-- Response object of the chat endpoint in `server/index.js`. -/
structure ChatResponse where
  status : Nat
  error : Option String
  reply : Option String
deriving Repr, DecidableEq

/-- Outcome of the upstream `fetch` to the OpenAI completions API. -/
structure UpstreamResult where
  ok : Bool
  status : Nat
  errorMessage : Option String
  content : Option String
deriving Repr, DecidableEq

/-- JavaScript falsiness of an optional string field (`undefined`, `null`
and `""` are falsy). -/
def jsFalsy : Option String → Bool
  | none => true
  | some s => s == ""

/-- The `POST /api/chat` handler (server/index.js lines 24–86). The returned
boolean records whether the upstream completion API was called. -/
def chatHandler (message apiKey : Option String) (upstream : UpstreamResult) :
    ChatResponse × Bool :=
  if jsFalsy message then
    ({ status := 400, error := some "Message is required", reply := none }, false)
  else if jsFalsy apiKey then
    ({ status := 500, error := some "OpenAI API key not configured",
       reply := some "Server configuration error: Missing OPENAI_API_KEY environment variable" },
     false)
  else if !upstream.ok then
    ({ status := upstream.status, error := some "OpenAI API error",
       reply := some ("Error from OpenAI: " ++ (upstream.errorMessage.getD "Unknown error")) },
     true)
  else
    ({ status := 200, error := none,
       reply := some (upstream.content.getD "No response generated") }, true)

@[simp] lemma azdEnvSet_apply (s : ConfigStore) (fails : AzdKey → Bool)
    (k : AzdKey) (v : String) (q : AzdKey) :
    azdEnvSet s fails k v q = if fails k then s q else if q = k then some v else s q := by
  unfold azdEnvSet
  split <;> rfl

@[simp] lemma azdEnvGetValue_def (s : ConfigStore) (k : AzdKey) :
    azdEnvGetValue s k = s k := rfl

/-- **C3.** For every candidate list containing exactly one candidate, the
Selector returns `Selected` of that candidate — never `NotFound` and never
the prompt/fallback path — regardless of any configured name or group hint
and of the interactive channel. -/
theorem selectResource_single_candidate (r : ResourceCandidate)
    (configuredName configuredGroup : Option String) (hostChoice : Option Nat) :
    selectResource [r] configuredName configuredGroup hostChoice =
      SelectResult.selected r false := rfl

/-- **C10.** A chat request whose `message` field is absent or empty gets a
400 response with body `{"error": "Message is required"}` and the upstream
API is not called; a request with a non-empty message but no configured
`OPENAI_API_KEY` gets a 500 response and the upstream API is not called. -/
theorem chatHandler_validation :
    (∀ (message apiKey : Option String) (up : UpstreamResult),
      jsFalsy message = true →
      chatHandler message apiKey up =
        ({ status := 400, error := some "Message is required", reply := none }, false))
    ∧ (∀ (m : String) (up : UpstreamResult),
      jsFalsy (some m) = false →
      (chatHandler (some m) none up).1.status = 500 ∧
      (chatHandler (some m) none up).2 = false) := by
  constructor
  · intro message apiKey up h
    simp [chatHandler, h]
  · intro m up h
    have hm : ¬ m = "" := by simpa [jsFalsy] using h
    simp [chatHandler, h, jsFalsy, hm]

theorem chatHandler_validation_witness :
    chatHandler (some "") (some "sk-1") ⟨true, 200, none, some "hi"⟩ =
      ({ status := 400, error := some "Message is required", reply := none }, false)
    ∧ (chatHandler (some "hello") none ⟨true, 200, none, some "hi"⟩).1.status = 500
    ∧ (chatHandler (some "hello") none ⟨true, 200, none, some "hi"⟩).2 = false :=
  ⟨chatHandler_validation.1 (some "") (some "sk-1") _ (by decide),
   (chatHandler_validation.2 "hello" _ (by decide)).1,
   (chatHandler_validation.2 "hello" _ (by decide)).2⟩

/-- **C2.** With at least two candidates, a configured-name hint matching
exactly one candidate selects that candidate regardless of its position
(part 1); the configured-group hint is ignored whenever the name hint selects
a candidate (part 2); when the name hint selects nothing the group hint
selects only on a unique group match — otherwise the outcome is as if no
group hint were configured (part 3) — and a unique group match is selected
(part 4). -/
theorem selectResource_configured_name_precedence :
    (∀ (a b : ResourceCandidate) (t : List ResourceCandidate)
        (cn cg : Option String) (hc : Option Nat) (r : ResourceCandidate),
      nameMatches (a :: b :: t) cn = [r] →
      selectResource (a :: b :: t) cn cg hc = SelectResult.selected r false)
    ∧ (∀ (a b : ResourceCandidate) (t : List ResourceCandidate)
        (cn : Option String) (m : ResourceCandidate) (ms : List ResourceCandidate)
        (cg cg' : Option String) (hc : Option Nat),
      nameMatches (a :: b :: t) cn = m :: ms →
      selectResource (a :: b :: t) cn cg hc = selectResource (a :: b :: t) cn cg' hc)
    ∧ (∀ (a b : ResourceCandidate) (t : List ResourceCandidate)
        (cn cg : Option String) (hc : Option Nat),
      nameMatches (a :: b :: t) cn = [] →
      (groupMatches (a :: b :: t) cg).length ≠ 1 →
      selectResource (a :: b :: t) cn cg hc = selectResource (a :: b :: t) cn none hc)
    ∧ (∀ (a b : ResourceCandidate) (t : List ResourceCandidate)
        (cn cg : Option String) (hc : Option Nat) (m : ResourceCandidate),
      nameMatches (a :: b :: t) cn = [] →
      groupMatches (a :: b :: t) cg = [m] →
      selectResource (a :: b :: t) cn cg hc = SelectResult.selected m false) := by
  refine ⟨?_, ?_, ?_, ?_⟩
  · intro a b t cn cg hc r hm
    simp [selectResource, hm]
  · intro a b t cn m ms cg cg' hc hm
    simp [selectResource, hm]
  · intro a b t cn cg hc hm hg
    have hnone : groupMatches (a :: b :: t) none = [] := rfl
    cases hgm : groupMatches (a :: b :: t) cg with
    | nil => simp [selectResource, hm, hgm, hnone]
    | cons x xs =>
      cases xs with
      | nil => exact absurd (by simp [hgm]) hg
      | cons y ys => simp [selectResource, hm, hgm, hnone]
  · intro a b t cn cg hc m hm hgm
    simp [selectResource, hm, hgm]

theorem selectResource_configured_name_precedence_witness :
    selectResource [⟨"X", "rg1", "l", "1"⟩, ⟨"Y", "rg2", "l", "2"⟩]
        (some "Y") none none = SelectResult.selected ⟨"Y", "rg2", "l", "2"⟩ false
    ∧ selectResource [⟨"X", "rg1", "l", "1"⟩, ⟨"Y", "rg2", "l", "2"⟩]
        (some "Y") (some "rg1") none
      = selectResource [⟨"X", "rg1", "l", "1"⟩, ⟨"Y", "rg2", "l", "2"⟩]
        (some "Y") (some "rg2") none
    ∧ selectResource [⟨"X", "rg1", "l", "1"⟩, ⟨"Y", "rg2", "l", "2"⟩]
        none (some "other") none
      = selectResource [⟨"X", "rg1", "l", "1"⟩, ⟨"Y", "rg2", "l", "2"⟩]
        none none none
    ∧ selectResource [⟨"X", "rg1", "l", "1"⟩, ⟨"Y", "rg2", "l", "2"⟩]
        none (some "rg2") none = SelectResult.selected ⟨"Y", "rg2", "l", "2"⟩ false :=
  ⟨selectResource_configured_name_precedence.1 _ _ [] (some "Y") none none _ (by decide),
   selectResource_configured_name_precedence.2.1 _ _ [] (some "Y")
     ⟨"Y", "rg2", "l", "2"⟩ [] (some "rg1") (some "rg2") none (by decide),
   selectResource_configured_name_precedence.2.2.1 _ _ [] none (some "other") none
     (by decide) (by decide),
   selectResource_configured_name_precedence.2.2.2 _ _ [] none (some "rg2") none _
     (by decide) (by decide)⟩

/-- **C4.** With multiple candidates, no hint selecting one, and no
interactive channel (`Select-Index` returns `-1`), the Selector totally and
deterministically falls back to the first candidate in listing order and
flags the not-confirmed warning. -/
theorem selectResource_noninteractive_fallback
    (a b : ResourceCandidate) (t : List ResourceCandidate) (cn cg : Option String)
    (hname : nameMatches (a :: b :: t) cn = [])
    (hgroup : (groupMatches (a :: b :: t) cg).length ≠ 1) :
    selectResource (a :: b :: t) cn cg none = SelectResult.selected a true := by
  cases hgm : groupMatches (a :: b :: t) cg with
  | nil => simp [selectResource, hname, hgm, selectIndex]
  | cons x xs =>
    cases xs with
    | nil => exact absurd (by simp [hgm]) hgroup
    | cons y ys => simp [selectResource, hname, hgm, selectIndex]

theorem selectResource_noninteractive_fallback_witness :
    selectResource [⟨"X", "rg1", "l", "1"⟩, ⟨"Y", "rg2", "l", "2"⟩]
        none none none = SelectResult.selected ⟨"X", "rg1", "l", "1"⟩ true :=
  selectResource_noninteractive_fallback _ _ [] none none (by decide) (by decide)

/-- **C5.** When no fully pre-configured resource exists (at least one of
endpoint, resource group, resource name is blank) and the catalog lists zero
resources, the run exits 1 with the resources-not-found guidance, after
listing resources but without any project or agent discovery and without
writing any configuration file. The tenant and client-id hypotheses express
that the run reached the discovery step at all. -/
theorem preprovision_no_resources_fails (inp : Inputs)
    (ht : isBlank (azdEnvGetValue inp.store AzdKey.ENTRA_TENANT_ID) = false ∨
          inp.accountTenantId ≠ "")
    (hc : inp.clientId ≠ "")
    (hnofast : isBlank (azdEnvGetValue inp.store AzdKey.AI_AGENT_ENDPOINT) = true ∨
               isBlank (azdEnvGetValue inp.store AzdKey.AI_FOUNDRY_RESOURCE_GROUP) = true ∨
               isBlank (azdEnvGetValue inp.store AzdKey.AI_FOUNDRY_RESOURCE_NAME) = true)
    (hres : inp.resources = []) :
    (preprovision inp).exitCode = 1 ∧
    (preprovision inp).failReason = some FailReason.resourcesNotFound ∧
    (preprovision inp).resourceListed = true ∧
    (preprovision inp).projectsListed = false ∧
    (preprovision inp).agentsListed = false ∧
    (preprovision inp).azdEnvFile = none ∧
    (preprovision inp).frontendEnvFile = none ∧
    (preprovision inp).backendEnvFile = none := by
  rcases hnofast with h | h | h <;>
    cases hb : isBlank (azdEnvGetValue inp.store AzdKey.ENTRA_TENANT_ID) <;>
      rcases ht with ht | ht <;>
        simp_all [preprovision, tenantStep, discoveryFlow, failOut, selectResource]

theorem preprovision_no_resources_fails_witness :
    (preprovision ⟨fun _ => none, fun _ => false, "tid", "cid", [],
        fun _ => [], fun _ => none, none, [], [], []⟩).exitCode = 1 ∧
    (preprovision ⟨fun _ => none, fun _ => false, "tid", "cid", [],
        fun _ => [], fun _ => none, none, [], [], []⟩).failReason =
      some FailReason.resourcesNotFound ∧
    (preprovision ⟨fun _ => none, fun _ => false, "tid", "cid", [],
        fun _ => [], fun _ => none, none, [], [], []⟩).resourceListed = true ∧
    (preprovision ⟨fun _ => none, fun _ => false, "tid", "cid", [],
        fun _ => [], fun _ => none, none, [], [], []⟩).projectsListed = false ∧
    (preprovision ⟨fun _ => none, fun _ => false, "tid", "cid", [],
        fun _ => [], fun _ => none, none, [], [], []⟩).agentsListed = false ∧
    (preprovision ⟨fun _ => none, fun _ => false, "tid", "cid", [],
        fun _ => [], fun _ => none, none, [], [], []⟩).azdEnvFile = none ∧
    (preprovision ⟨fun _ => none, fun _ => false, "tid", "cid", [],
        fun _ => [], fun _ => none, none, [], [], []⟩).frontendEnvFile = none ∧
    (preprovision ⟨fun _ => none, fun _ => false, "tid", "cid", [],
        fun _ => [], fun _ => none, none, [], [], []⟩).backendEnvFile = none :=
  preprovision_no_resources_fails _ (Or.inr (by decide)) (by decide)
    (Or.inl (by decide)) rfl

/-- When the fast-path precondition fails and tenant/client resolution
succeed, the run is the discovery flow on a store that differs from the
input store only at the two identity keys. -/
lemma preprovision_discovery (inp : Inputs)
    (ht : isBlank (azdEnvGetValue inp.store AzdKey.ENTRA_TENANT_ID) = false ∨
          inp.accountTenantId ≠ "")
    (hc : inp.clientId ≠ "")
    (hnofast : isBlank (azdEnvGetValue inp.store AzdKey.AI_AGENT_ENDPOINT) = true ∨
               isBlank (azdEnvGetValue inp.store AzdKey.AI_FOUNDRY_RESOURCE_GROUP) = true ∨
               isBlank (azdEnvGetValue inp.store AzdKey.AI_FOUNDRY_RESOURCE_NAME) = true) :
    ∃ tid s2, preprovision inp = discoveryFlow inp tid s2 ∧
      s2 AzdKey.AI_FOUNDRY_RESOURCE_GROUP = inp.store AzdKey.AI_FOUNDRY_RESOURCE_GROUP ∧
      s2 AzdKey.AI_FOUNDRY_RESOURCE_NAME = inp.store AzdKey.AI_FOUNDRY_RESOURCE_NAME ∧
      s2 AzdKey.AI_AGENT_ENDPOINT = inp.store AzdKey.AI_AGENT_ENDPOINT ∧
      s2 AzdKey.AI_AGENT_ID = inp.store AzdKey.AI_AGENT_ID := by
  cases hb : isBlank (azdEnvGetValue inp.store AzdKey.ENTRA_TENANT_ID) with
  | true =>
    have hacc : inp.accountTenantId ≠ "" := by
      rcases ht with ht | ht
      · rw [hb] at ht; exact absurd ht (by simp)
      · exact ht
    refine ⟨inp.accountTenantId,
      azdEnvSet (azdEnvSet inp.store inp.writeFails AzdKey.ENTRA_TENANT_ID
          inp.accountTenantId)
        inp.writeFails AzdKey.ENTRA_SPA_CLIENT_ID inp.clientId, ?_, ?_, ?_, ?_, ?_⟩
    · rcases hnofast with h | h | h <;>
        simp_all [preprovision, tenantStep]
    all_goals simp
  | false =>
    refine ⟨psTrim ((azdEnvGetValue inp.store AzdKey.ENTRA_TENANT_ID).getD ""),
      azdEnvSet inp.store inp.writeFails AzdKey.ENTRA_SPA_CLIENT_ID inp.clientId,
      ?_, ?_, ?_, ?_, ?_⟩
    · rcases hnofast with h | h | h <;>
        simp_all [preprovision, tenantStep]
    all_goals simp

/-- In the discovery flow, once a resource is selected and a project exists,
the persisted `AI_AGENT_ENDPOINT` is the deterministic URL built from the
resource name and the last `/`-segment of the first project's name. -/
lemma discoveryFlow_endpoint (inp : Inputs) (tid : String) (s : ConfigStore)
    (r : ResourceCandidate) (w : Bool) (p : ProjectCandidate)
    (ps : List ProjectCandidate)
    (hsel : selectResource inp.resources (s AzdKey.AI_FOUNDRY_RESOURCE_NAME)
        (s AzdKey.AI_FOUNDRY_RESOURCE_GROUP) inp.hostChoice =
      SelectResult.selected r w)
    (hproj : inp.projectsOf r.id = p :: ps)
    (hw : inp.writeFails AzdKey.AI_AGENT_ENDPOINT = false) :
    (discoveryFlow inp tid s).store AzdKey.AI_AGENT_ENDPOINT =
      some ("https://" ++ r.name ++ ".services.ai.azure.com/api/projects/" ++
        lastSegment p.name) := by
  unfold discoveryFlow
  simp only [azdEnvGetValue_def, hsel]
  simp only [hproj]
  split
  · split <;> simp_all [failOut, successOut]
  · simp_all [successOut]

/-- **C9.** On the discovery path, whenever a resource is selected and the
selected (first) project exists, the run persists `AI_AGENT_ENDPOINT` as
exactly `https://{resourceName}.services.ai.azure.com/api/projects/{projectName}`
with `projectName` the final `/`-separated segment of the project's name. -/
theorem preprovision_endpoint_format (inp : Inputs) (r : ResourceCandidate)
    (w : Bool) (p : ProjectCandidate) (ps : List ProjectCandidate)
    (ht : isBlank (azdEnvGetValue inp.store AzdKey.ENTRA_TENANT_ID) = false ∨
          inp.accountTenantId ≠ "")
    (hc : inp.clientId ≠ "")
    (hnofast : isBlank (azdEnvGetValue inp.store AzdKey.AI_AGENT_ENDPOINT) = true ∨
               isBlank (azdEnvGetValue inp.store AzdKey.AI_FOUNDRY_RESOURCE_GROUP) = true ∨
               isBlank (azdEnvGetValue inp.store AzdKey.AI_FOUNDRY_RESOURCE_NAME) = true)
    (hsel : selectResource inp.resources (inp.store AzdKey.AI_FOUNDRY_RESOURCE_NAME)
        (inp.store AzdKey.AI_FOUNDRY_RESOURCE_GROUP) inp.hostChoice =
      SelectResult.selected r w)
    (hproj : inp.projectsOf r.id = p :: ps)
    (hw : inp.writeFails AzdKey.AI_AGENT_ENDPOINT = false) :
    (preprovision inp).store AzdKey.AI_AGENT_ENDPOINT =
      some ("https://" ++ r.name ++ ".services.ai.azure.com/api/projects/" ++
        lastSegment p.name) := by
  obtain ⟨tid, s2, heq, hg, hn, _, _⟩ := preprovision_discovery inp ht hc hnofast
  rw [heq]
  refine discoveryFlow_endpoint inp tid s2 r w p ps ?_ hproj hw
  rw [hn, hg]
  exact hsel

theorem preprovision_endpoint_format_witness :
    (preprovision ⟨fun _ => none, fun _ => false, "tid", "cid",
        [⟨"res1", "rg1", "l", "id1"⟩], fun _ => [⟨"accounts/a/projects/proj1"⟩],
        fun _ => some [⟨"agentA"⟩], none, [], [], []⟩).store AzdKey.AI_AGENT_ENDPOINT =
      some "https://res1.services.ai.azure.com/api/projects/proj1" :=
  (preprovision_endpoint_format _ ⟨"res1", "rg1", "l", "id1"⟩ false
    ⟨"accounts/a/projects/proj1"⟩ [] (Or.inr (by decide)) (by decide)
    (Or.inl (by decide)) (by decide) rfl rfl).trans (by decide)

/-- **C6 (counterexample).** On the pre-configured fast path (endpoint,
resource group and resource name already in the store) with no configured
`AI_AGENT_ID`, agent discovery runs, finds zero agents — and the run still
exits 0 with no failure (preprovision.ps1 lines 193–208 silently continue),
contradicting the claim that zero agents fail in every path. -/
theorem preprovision_fast_path_zero_agents_counterexample :
    (isBlank (azdEnvGetValue (Inputs.store ⟨fun k => match k with
        | AzdKey.AI_AGENT_ENDPOINT => some "https://ep"
        | AzdKey.AI_FOUNDRY_RESOURCE_GROUP => some "rg"
        | AzdKey.AI_FOUNDRY_RESOURCE_NAME => some "rn"
        | _ => none,
      fun _ => false, "tid", "cid", [], fun _ => [], fun _ => some [],
      none, [], [], []⟩) AzdKey.AI_AGENT_ID) = true) ∧
    (Inputs.agentsOf ⟨fun k => match k with
        | AzdKey.AI_AGENT_ENDPOINT => some "https://ep"
        | AzdKey.AI_FOUNDRY_RESOURCE_GROUP => some "rg"
        | AzdKey.AI_FOUNDRY_RESOURCE_NAME => some "rn"
        | _ => none,
      fun _ => false, "tid", "cid", [], fun _ => [], fun _ => some [],
      none, [], [], []⟩) "https://ep" = some [] ∧
    (preprovision ⟨fun k => match k with
        | AzdKey.AI_AGENT_ENDPOINT => some "https://ep"
        | AzdKey.AI_FOUNDRY_RESOURCE_GROUP => some "rg"
        | AzdKey.AI_FOUNDRY_RESOURCE_NAME => some "rn"
        | _ => none,
      fun _ => false, "tid", "cid", [], fun _ => [], fun _ => some [],
      none, [], [], []⟩).agentsListed = true ∧
    (preprovision ⟨fun k => match k with
        | AzdKey.AI_AGENT_ENDPOINT => some "https://ep"
        | AzdKey.AI_FOUNDRY_RESOURCE_GROUP => some "rg"
        | AzdKey.AI_FOUNDRY_RESOURCE_NAME => some "rn"
        | _ => none,
      fun _ => false, "tid", "cid", [], fun _ => [], fun _ => some [],
      none, [], [], []⟩).exitCode = 0 ∧
    (preprovision ⟨fun k => match k with
        | AzdKey.AI_AGENT_ENDPOINT => some "https://ep"
        | AzdKey.AI_FOUNDRY_RESOURCE_GROUP => some "rg"
        | AzdKey.AI_FOUNDRY_RESOURCE_NAME => some "rn"
        | _ => none,
      fun _ => false, "tid", "cid", [], fun _ => [], fun _ => some [],
      none, [], [], []⟩).failReason = none := by decide

/-- In the discovery flow, a blank configured agent id together with an
empty agent listing exits 1 before any file is emitted. -/
lemma discoveryFlow_zero_agents (inp : Inputs) (tid : String) (s : ConfigStore)
    (r : ResourceCandidate) (w : Bool) (p : ProjectCandidate)
    (ps : List ProjectCandidate)
    (hsel : selectResource inp.resources (s AzdKey.AI_FOUNDRY_RESOURCE_NAME)
        (s AzdKey.AI_FOUNDRY_RESOURCE_GROUP) inp.hostChoice =
      SelectResult.selected r w)
    (hproj : inp.projectsOf r.id = p :: ps)
    (hagent : isBlank (s AzdKey.AI_AGENT_ID) = true)
    (hzero : inp.agentsOf ("https://" ++ r.name ++
        ".services.ai.azure.com/api/projects/" ++ lastSegment p.name) = some []) :
    (discoveryFlow inp tid s).exitCode = 1 ∧
    (discoveryFlow inp tid s).failReason = some FailReason.agentNotConfigured ∧
    (discoveryFlow inp tid s).agentsListed = true ∧
    (discoveryFlow inp tid s).azdEnvFile = none ∧
    (discoveryFlow inp tid s).frontendEnvFile = none ∧
    (discoveryFlow inp tid s).backendEnvFile = none := by
  unfold discoveryFlow
  simp only [azdEnvGetValue_def, hsel]
  simp only [hproj]
  simp [hagent, hzero, failOut]

/-- **C6 (amended).** Zero discovered agents with no configured `AI_AGENT_ID`
drive the run to a non-zero exit with the agent-not-configured guidance and
no emitted files — on the discovery path only; on the pre-configured fast
path the run silently continues (see the counterexample). -/
theorem preprovision_discovery_zero_agents_fails (inp : Inputs)
    (r : ResourceCandidate) (w : Bool) (p : ProjectCandidate)
    (ps : List ProjectCandidate)
    (ht : isBlank (azdEnvGetValue inp.store AzdKey.ENTRA_TENANT_ID) = false ∨
          inp.accountTenantId ≠ "")
    (hc : inp.clientId ≠ "")
    (hnofast : isBlank (azdEnvGetValue inp.store AzdKey.AI_AGENT_ENDPOINT) = true ∨
               isBlank (azdEnvGetValue inp.store AzdKey.AI_FOUNDRY_RESOURCE_GROUP) = true ∨
               isBlank (azdEnvGetValue inp.store AzdKey.AI_FOUNDRY_RESOURCE_NAME) = true)
    (hsel : selectResource inp.resources (inp.store AzdKey.AI_FOUNDRY_RESOURCE_NAME)
        (inp.store AzdKey.AI_FOUNDRY_RESOURCE_GROUP) inp.hostChoice =
      SelectResult.selected r w)
    (hproj : inp.projectsOf r.id = p :: ps)
    (hagent : isBlank (inp.store AzdKey.AI_AGENT_ID) = true)
    (hzero : inp.agentsOf ("https://" ++ r.name ++
        ".services.ai.azure.com/api/projects/" ++ lastSegment p.name) = some []) :
    (preprovision inp).exitCode = 1 ∧
    (preprovision inp).failReason = some FailReason.agentNotConfigured ∧
    (preprovision inp).agentsListed = true ∧
    (preprovision inp).azdEnvFile = none ∧
    (preprovision inp).frontendEnvFile = none ∧
    (preprovision inp).backendEnvFile = none := by
  obtain ⟨tid, s2, heq, hg, hn, _, ha⟩ := preprovision_discovery inp ht hc hnofast
  rw [heq]
  refine discoveryFlow_zero_agents inp tid s2 r w p ps ?_ hproj ?_ hzero
  · rw [hn, hg]; exact hsel
  · rw [ha]; exact hagent

theorem preprovision_discovery_zero_agents_fails_witness :
    (preprovision ⟨fun _ => none, fun _ => false, "tid", "cid",
        [⟨"res1", "rg1", "l", "id1"⟩], fun _ => [⟨"proj1"⟩], fun _ => some [],
        none, [], [], []⟩).exitCode = 1 ∧
    (preprovision ⟨fun _ => none, fun _ => false, "tid", "cid",
        [⟨"res1", "rg1", "l", "id1"⟩], fun _ => [⟨"proj1"⟩], fun _ => some [],
        none, [], [], []⟩).failReason = some FailReason.agentNotConfigured ∧
    (preprovision ⟨fun _ => none, fun _ => false, "tid", "cid",
        [⟨"res1", "rg1", "l", "id1"⟩], fun _ => [⟨"proj1"⟩], fun _ => some [],
        none, [], [], []⟩).agentsListed = true ∧
    (preprovision ⟨fun _ => none, fun _ => false, "tid", "cid",
        [⟨"res1", "rg1", "l", "id1"⟩], fun _ => [⟨"proj1"⟩], fun _ => some [],
        none, [], [], []⟩).azdEnvFile = none ∧
    (preprovision ⟨fun _ => none, fun _ => false, "tid", "cid",
        [⟨"res1", "rg1", "l", "id1"⟩], fun _ => [⟨"proj1"⟩], fun _ => some [],
        none, [], [], []⟩).frontendEnvFile = none ∧
    (preprovision ⟨fun _ => none, fun _ => false, "tid", "cid",
        [⟨"res1", "rg1", "l", "id1"⟩], fun _ => [⟨"proj1"⟩], fun _ => some [],
        none, [], [], []⟩).backendEnvFile = none :=
  preprovision_discovery_zero_agents_fails _ ⟨"res1", "rg1", "l", "id1"⟩ false
    ⟨"proj1"⟩ [] (Or.inr (by decide)) (by decide) (Or.inl (by decide))
    (by decide) rfl (by decide) rfl

/-- Lookup after a hashtable-style update. -/
lemma fileGet_fileSet (t : List (String × String)) (k v k' : String) :
    fileGet (fileSet t k v) k' = if k = k' then some v else fileGet t k' := by
  induction t with
  | nil => simp [fileSet, fileGet]
  | cons hd tl ih =>
    obtain ⟨k0, v0⟩ := hd
    by_cases h0 : k0 = k
    · subst h0
      by_cases h1 : k0 = k' <;> simp [fileSet, fileGet, h1]
    · by_cases h1 : k0 = k' <;> by_cases h2 : k = k'
      · exact absurd (h1.trans h2.symm) h0
      · subst h1; simp [fileSet, fileGet, h0, h2, Ne.symm h2, ih]
      · subst h2; simp [fileSet, fileGet, h0, h1, ih]
      · simp [fileSet, fileGet, h0, h1, h2, ih]

/-- A conditional update of a different key does not change a lookup. -/
lemma fileGet_setIfPresent_ne (t : List (String × String)) (k0 : String)
    (vo : Option String) (k : String) (h : k0 ≠ k) :
    fileGet (setIfPresent t k0 vo) k = fileGet t k := by
  unfold setIfPresent
  split
  · rfl
  · rw [fileGet_fileSet]
    simp [h]

/-- **C7 (counterexample).** A successful run whose existing
`frontend/.env.local` and backend `.env` each contain `FOO=bar`, with the
resolved configuration containing `ENTRA_SPA_CLIENT_ID=abc`, produces
frontend and backend files without the `FOO` key: those two files are
rewritten from scratch, not merged. -/
theorem emitter_replaces_frontend_counterexample :
    (Inputs.existingFrontendEnv ⟨fun k => match k with
        | AzdKey.AI_AGENT_ENDPOINT => some "https://ep"
        | AzdKey.AI_FOUNDRY_RESOURCE_GROUP => some "rg"
        | AzdKey.AI_FOUNDRY_RESOURCE_NAME => some "rn"
        | AzdKey.AI_AGENT_ID => some "agent1"
        | _ => none,
      fun _ => false, "tid", "abc", [], fun _ => [], fun _ => none,
      none, [], [("FOO", "bar")], [("FOO", "bar")]⟩) = [("FOO", "bar")] ∧
    (preprovision ⟨fun k => match k with
        | AzdKey.AI_AGENT_ENDPOINT => some "https://ep"
        | AzdKey.AI_FOUNDRY_RESOURCE_GROUP => some "rg"
        | AzdKey.AI_FOUNDRY_RESOURCE_NAME => some "rn"
        | AzdKey.AI_AGENT_ID => some "agent1"
        | _ => none,
      fun _ => false, "tid", "abc", [], fun _ => [], fun _ => none,
      none, [], [("FOO", "bar")], [("FOO", "bar")]⟩).exitCode = 0 ∧
    fileGet (((preprovision ⟨fun k => match k with
        | AzdKey.AI_AGENT_ENDPOINT => some "https://ep"
        | AzdKey.AI_FOUNDRY_RESOURCE_GROUP => some "rg"
        | AzdKey.AI_FOUNDRY_RESOURCE_NAME => some "rn"
        | AzdKey.AI_AGENT_ID => some "agent1"
        | _ => none,
      fun _ => false, "tid", "abc", [], fun _ => [], fun _ => none,
      none, [], [("FOO", "bar")], [("FOO", "bar")]⟩).azdEnvFile).getD [])
      "ENTRA_SPA_CLIENT_ID" = some "abc" ∧
    fileGet (((preprovision ⟨fun k => match k with
        | AzdKey.AI_AGENT_ENDPOINT => some "https://ep"
        | AzdKey.AI_FOUNDRY_RESOURCE_GROUP => some "rg"
        | AzdKey.AI_FOUNDRY_RESOURCE_NAME => some "rn"
        | AzdKey.AI_AGENT_ID => some "agent1"
        | _ => none,
      fun _ => false, "tid", "abc", [], fun _ => [], fun _ => none,
      none, [], [("FOO", "bar")], [("FOO", "bar")]⟩).frontendEnvFile).getD [])
      "FOO" = none ∧
    fileGet (((preprovision ⟨fun k => match k with
        | AzdKey.AI_AGENT_ENDPOINT => some "https://ep"
        | AzdKey.AI_FOUNDRY_RESOURCE_GROUP => some "rg"
        | AzdKey.AI_FOUNDRY_RESOURCE_NAME => some "rn"
        | AzdKey.AI_AGENT_ID => some "agent1"
        | _ => none,
      fun _ => false, "tid", "abc", [], fun _ => [], fun _ => none,
      none, [], [("FOO", "bar")], [("FOO", "bar")]⟩).backendEnvFile).getD [])
      "FOO" = none := by decide

/-- **C7 (amended).** The merge-not-replace guarantee holds for the azd
environment `.env` output: every key of the preexisting file that is not one
of the six managed keys keeps its value in the emitted file, alongside the
freshly written `ENTRA_SPA_CLIENT_ID`. The frontend and backend files are
regenerated from scratch (see the counterexample). -/
theorem emitAzdEnv_merge_preserves (existing : List (String × String))
    (clientId tenantId : String) (s : ConfigStore) (k v : String)
    (hk : k ∉ managedAzdKeys)
    (hv : fileGet (buildTable existing) k = some v) :
    fileGet (emitAzdEnv existing clientId tenantId s) k = some v ∧
    fileGet (emitAzdEnv existing clientId tenantId s) "ENTRA_SPA_CLIENT_ID" =
      some clientId := by
  simp only [managedAzdKeys, List.mem_cons, List.not_mem_nil, or_false] at hk
  push_neg at hk
  obtain ⟨h1, h2, h3, h4, h5, h6⟩ := hk
  constructor
  · unfold emitAzdEnv
    rw [fileGet_setIfPresent_ne _ _ _ _ (Ne.symm h6),
        fileGet_setIfPresent_ne _ _ _ _ (Ne.symm h5),
        fileGet_setIfPresent_ne _ _ _ _ (Ne.symm h4),
        fileGet_setIfPresent_ne _ _ _ _ (Ne.symm h3),
        fileGet_fileSet, fileGet_fileSet]
    simp [Ne.symm h1, Ne.symm h2, hv]
  · unfold emitAzdEnv
    rw [fileGet_setIfPresent_ne _ _ _ _ (by decide),
        fileGet_setIfPresent_ne _ _ _ _ (by decide),
        fileGet_setIfPresent_ne _ _ _ _ (by decide),
        fileGet_setIfPresent_ne _ _ _ _ (by decide),
        fileGet_fileSet, fileGet_fileSet]
    simp

theorem emitAzdEnv_merge_preserves_witness :
    fileGet (emitAzdEnv [("FOO", "bar")] "abc" "tid" (fun _ => none)) "FOO" =
      some "bar" ∧
    fileGet (emitAzdEnv [("FOO", "bar")] "abc" "tid" (fun _ => none))
      "ENTRA_SPA_CLIENT_ID" = some "abc" :=
  emitAzdEnv_merge_preserves [("FOO", "bar")] "abc" "tid" (fun _ => none)
    "FOO" "bar" (by decide) (by decide)

/-- **C8 (counterexample).** A run in which the `azd env set` of the resolved
`AI_AGENT_ENDPOINT` fails: the endpoint is absent from the store after the
run, yet the run exits 0 with no reported failure and emits all three
configuration files — the write failure is silently swallowed. -/
theorem preprovision_write_failure_counterexample :
    (Inputs.writeFails ⟨fun _ => none,
        fun k => decide (k = AzdKey.AI_AGENT_ENDPOINT), "tid", "cid",
        [⟨"res1", "rg1", "l", "id1"⟩], fun _ => [⟨"proj1"⟩],
        fun _ => some [⟨"agentA"⟩], none, [], [], []⟩) AzdKey.AI_AGENT_ENDPOINT =
      true ∧
    (preprovision ⟨fun _ => none,
        fun k => decide (k = AzdKey.AI_AGENT_ENDPOINT), "tid", "cid",
        [⟨"res1", "rg1", "l", "id1"⟩], fun _ => [⟨"proj1"⟩],
        fun _ => some [⟨"agentA"⟩], none, [], [], []⟩).store
      AzdKey.AI_AGENT_ENDPOINT = none ∧
    (preprovision ⟨fun _ => none,
        fun k => decide (k = AzdKey.AI_AGENT_ENDPOINT), "tid", "cid",
        [⟨"res1", "rg1", "l", "id1"⟩], fun _ => [⟨"proj1"⟩],
        fun _ => some [⟨"agentA"⟩], none, [], [], []⟩).exitCode = 0 ∧
    (preprovision ⟨fun _ => none,
        fun k => decide (k = AzdKey.AI_AGENT_ENDPOINT), "tid", "cid",
        [⟨"res1", "rg1", "l", "id1"⟩], fun _ => [⟨"proj1"⟩],
        fun _ => some [⟨"agentA"⟩], none, [], [], []⟩).failReason = none ∧
    ((preprovision ⟨fun _ => none,
        fun k => decide (k = AzdKey.AI_AGENT_ENDPOINT), "tid", "cid",
        [⟨"res1", "rg1", "l", "id1"⟩], fun _ => [⟨"proj1"⟩],
        fun _ => some [⟨"agentA"⟩], none, [], [], []⟩).azdEnvFile).isSome = true ∧
    ((preprovision ⟨fun _ => none,
        fun k => decide (k = AzdKey.AI_AGENT_ENDPOINT), "tid", "cid",
        [⟨"res1", "rg1", "l", "id1"⟩], fun _ => [⟨"proj1"⟩],
        fun _ => some [⟨"agentA"⟩], none, [], [], []⟩).frontendEnvFile).isSome =
      true ∧
    ((preprovision ⟨fun _ => none,
        fun k => decide (k = AzdKey.AI_AGENT_ENDPOINT), "tid", "cid",
        [⟨"res1", "rg1", "l", "id1"⟩], fun _ => [⟨"proj1"⟩],
        fun _ => some [⟨"agentA"⟩], none, [], [], []⟩).backendEnvFile).isSome =
      true := by decide

/-- The fast path always reaches emission with a zero exit code. -/
lemma fastFlow_succeeds (inp : Inputs) (tid : String) (s : ConfigStore)
    (ep : String) :
    (fastFlow inp tid s ep).exitCode = 0 ∧
    (fastFlow inp tid s ep).failReason = none ∧
    ((fastFlow inp tid s ep).azdEnvFile).isSome = true ∧
    ((fastFlow inp tid s ep).frontendEnvFile).isSome = true ∧
    ((fastFlow inp tid s ep).backendEnvFile).isSome = true := by
  unfold fastFlow
  split <;> simp [successOut]

/-- The discovery flow's exit code, failure reason and which files are
emitted depend only on the catalog, the prompt and the three AI keys of the
store — not on which writes fail. -/
lemma discoveryFlow_control (inp : Inputs) (f : AzdKey → Bool)
    (tid tid' : String) (s s' : ConfigStore)
    (hrn : s AzdKey.AI_FOUNDRY_RESOURCE_NAME = s' AzdKey.AI_FOUNDRY_RESOURCE_NAME)
    (hrg : s AzdKey.AI_FOUNDRY_RESOURCE_GROUP = s' AzdKey.AI_FOUNDRY_RESOURCE_GROUP)
    (hag : s AzdKey.AI_AGENT_ID = s' AzdKey.AI_AGENT_ID) :
    (discoveryFlow inp tid s).exitCode =
      (discoveryFlow { inp with writeFails := f } tid' s').exitCode ∧
    (discoveryFlow inp tid s).failReason =
      (discoveryFlow { inp with writeFails := f } tid' s').failReason ∧
    ((discoveryFlow inp tid s).azdEnvFile).isSome =
      ((discoveryFlow { inp with writeFails := f } tid' s').azdEnvFile).isSome ∧
    ((discoveryFlow inp tid s).frontendEnvFile).isSome =
      ((discoveryFlow { inp with writeFails := f } tid' s').frontendEnvFile).isSome ∧
    ((discoveryFlow inp tid s).backendEnvFile).isSome =
      ((discoveryFlow { inp with writeFails := f } tid' s').backendEnvFile).isSome := by
  unfold discoveryFlow
  simp only [azdEnvGetValue_def]
  rw [hrn, hrg]
  cases hsel : selectResource inp.resources (s' AzdKey.AI_FOUNDRY_RESOURCE_NAME)
      (s' AzdKey.AI_FOUNDRY_RESOURCE_GROUP) inp.hostChoice with
  | notFound => simp [hsel, failOut]
  | selected r w =>
    simp only [hsel]
    cases hproj : inp.projectsOf r.id with
    | nil => simp [hproj, failOut]
    | cons p ps =>
      simp only [hproj]
      simp [hag]
      cases hbl : isBlank (s' AzdKey.AI_AGENT_ID) with
      | false => simp [hbl, successOut]
      | true =>
        cases hagents : inp.agentsOf ("https://" ++ r.name ++
            ".services.ai.azure.com/api/projects/" ++ lastSegment p.name) with
        | none => simp [hbl, hagents, failOut]
        | some l =>
          cases l with
          | nil => simp [hbl, hagents, failOut]
          | cons a t => simp [hbl, hagents, successOut]

/-- Any two fast-path runs agree on exit code, failure reason and which
files are emitted (they always succeed). -/
lemma fastFlow_proj_eq (a b : Inputs) (t t' : String) (s s' : ConfigStore)
    (e e' : String) :
    (fastFlow a t s e).exitCode = (fastFlow b t' s' e').exitCode ∧
    (fastFlow a t s e).failReason = (fastFlow b t' s' e').failReason ∧
    ((fastFlow a t s e).azdEnvFile).isSome =
      ((fastFlow b t' s' e').azdEnvFile).isSome ∧
    ((fastFlow a t s e).frontendEnvFile).isSome =
      ((fastFlow b t' s' e').frontendEnvFile).isSome ∧
    ((fastFlow a t s e).backendEnvFile).isSome =
      ((fastFlow b t' s' e').backendEnvFile).isSome := by
  obtain ⟨e1, f1, a1, fr1, b1⟩ := fastFlow_succeeds a t s e
  obtain ⟨e2, f2, a2, fr2, b2⟩ := fastFlow_succeeds b t' s' e'
  exact ⟨e1.trans e2.symm, f1.trans f2.symm, a1.trans a2.symm,
    fr1.trans fr2.symm, b1.trans b2.symm⟩

/-- **C8 (amended).** A ConfigStore write failure is not detected by the
hook: for every input, the exit code, the failure reason, and whether each
of the three configuration files is emitted are the same as in the run where
every write succeeds. In particular no write failure ever aborts the run or
suppresses file emission; the emitted files are simply computed from
whatever the store then holds (see the counterexample). -/
theorem preprovision_write_failure_ignored (inp : Inputs) :
    (preprovision inp).exitCode =
      (preprovision { inp with writeFails := fun _ => false }).exitCode ∧
    (preprovision inp).failReason =
      (preprovision { inp with writeFails := fun _ => false }).failReason ∧
    ((preprovision inp).azdEnvFile).isSome =
      ((preprovision { inp with writeFails := fun _ => false }).azdEnvFile).isSome ∧
    ((preprovision inp).frontendEnvFile).isSome =
      ((preprovision { inp with
        writeFails := fun _ => false }).frontendEnvFile).isSome ∧
    ((preprovision inp).backendEnvFile).isSome =
      ((preprovision { inp with
        writeFails := fun _ => false }).backendEnvFile).isSome := by
  by_cases hb : isBlank (inp.store AzdKey.ENTRA_TENANT_ID) = true
  · by_cases hacc : inp.accountTenantId = ""
    · simp [preprovision, tenantStep, hb, hacc, failOut]
    · by_cases hcl : inp.clientId = ""
      · simp [preprovision, tenantStep, hb, hacc, hcl, failOut]
      · by_cases he : isBlank (inp.store AzdKey.AI_AGENT_ENDPOINT) = true <;>
          by_cases hgg : isBlank (inp.store AzdKey.AI_FOUNDRY_RESOURCE_GROUP) = true <;>
            by_cases hnn : isBlank (inp.store AzdKey.AI_FOUNDRY_RESOURCE_NAME) = true <;>
              simp [preprovision, tenantStep, hb, hacc, hcl, he, hgg, hnn] <;>
              first
                | exact fastFlow_proj_eq _ _ _ _ _ _ _ _
                | exact discoveryFlow_control _ _ _ _ _ _ (by simp) (by simp) (by simp)
  · by_cases hcl : inp.clientId = ""
    · simp [preprovision, tenantStep, hb, hcl, failOut]
    · by_cases he : isBlank (inp.store AzdKey.AI_AGENT_ENDPOINT) = true <;>
        by_cases hgg : isBlank (inp.store AzdKey.AI_FOUNDRY_RESOURCE_GROUP) = true <;>
          by_cases hnn : isBlank (inp.store AzdKey.AI_FOUNDRY_RESOURCE_NAME) = true <;>
            simp [preprovision, tenantStep, hb, hcl, he, hgg, hnn] <;>
            first
              | exact fastFlow_proj_eq _ _ _ _ _ _ _ _
              | exact discoveryFlow_control _ _ _ _ _ _ (by simp) (by simp) (by simp)

/-- The fast path performs neither resource nor project discovery. -/
lemma fastFlow_no_discovery (inp : Inputs) (tid : String) (s : ConfigStore)
    (ep : String) :
    (fastFlow inp tid s ep).resourceListed = false ∧
    (fastFlow inp tid s ep).projectsListed = false := by
  unfold fastFlow
  split <;> simp [successOut]

/-- A non-blank stored agent id is never rewritten by the fast path. -/
lemma fastFlow_preserves_agent (inp : Inputs) (tid : String) (s : ConfigStore)
    (ep : String) (hag : isBlank (s AzdKey.AI_AGENT_ID) = false) :
    (fastFlow inp tid s ep).store AzdKey.AI_AGENT_ID = s AzdKey.AI_AGENT_ID := by
  unfold fastFlow
  simp [hag, successOut]

/-- A non-blank stored agent id is never rewritten by the discovery flow. -/
lemma discoveryFlow_preserves_agent (inp : Inputs) (tid : String)
    (s : ConfigStore) (hag : isBlank (s AzdKey.AI_AGENT_ID) = false) :
    (discoveryFlow inp tid s).store AzdKey.AI_AGENT_ID = s AzdKey.AI_AGENT_ID := by
  unfold discoveryFlow
  cases hsel : selectResource inp.resources
      (azdEnvGetValue s AzdKey.AI_FOUNDRY_RESOURCE_NAME)
      (azdEnvGetValue s AzdKey.AI_FOUNDRY_RESOURCE_GROUP) inp.hostChoice with
  | notFound => simp [hsel, failOut]
  | selected r w =>
    simp only [hsel]
    cases hproj : inp.projectsOf r.id with
    | nil => simp [hproj, failOut]
    | cons p ps => simp [hproj, hag, successOut]

@[simp] lemma isBlank_some (s : String) : isBlank (some s) = isBlankStr s := rfl

@[simp] lemma isBlank_none : isBlank none = true := rfl

set_option maxHeartbeats 2000000 in
/-- **C1.** (1) With non-empty `AI_FOUNDRY_RESOURCE_GROUP`,
`AI_FOUNDRY_RESOURCE_NAME` and `AI_AGENT_ENDPOINT` already in the store, a
run performs no resource and no project discovery. (2) In every run, a
non-blank configured `AI_AGENT_ID` is never overwritten — the persisted
agent id after the run equals the one before, whatever the catalog would
return. (3) Under the fast-path precondition with the agent also pinned,
running the hook twice against the same provider state yields an identical
resolved configuration. -/
theorem preprovision_fast_path_idempotent :
    (∀ inp : Inputs,
      isBlank (inp.store AzdKey.AI_AGENT_ENDPOINT) = false →
      isBlank (inp.store AzdKey.AI_FOUNDRY_RESOURCE_GROUP) = false →
      isBlank (inp.store AzdKey.AI_FOUNDRY_RESOURCE_NAME) = false →
      (preprovision inp).resourceListed = false ∧
      (preprovision inp).projectsListed = false)
    ∧ (∀ inp : Inputs,
      isBlank (inp.store AzdKey.AI_AGENT_ID) = false →
      (preprovision inp).store AzdKey.AI_AGENT_ID = inp.store AzdKey.AI_AGENT_ID)
    ∧ (∀ inp : Inputs,
      isBlank (inp.store AzdKey.AI_AGENT_ENDPOINT) = false →
      isBlank (inp.store AzdKey.AI_FOUNDRY_RESOURCE_GROUP) = false →
      isBlank (inp.store AzdKey.AI_FOUNDRY_RESOURCE_NAME) = false →
      isBlank (inp.store AzdKey.AI_AGENT_ID) = false →
      resolvedConfig ((preprovision
        { inp with store := (preprovision inp).store }).store) =
      resolvedConfig ((preprovision inp).store)) := by
  refine ⟨?_, ?_, ?_⟩
  · intro inp he hg hn
    by_cases hb : isBlank (inp.store AzdKey.ENTRA_TENANT_ID) = true
    · by_cases hacc : inp.accountTenantId = ""
      · simp [preprovision, tenantStep, hb, hacc, failOut]
      · by_cases hcl : inp.clientId = ""
        · simp [preprovision, tenantStep, hb, hacc, hcl, failOut]
        · simp [preprovision, tenantStep, hb, hacc, hcl, he, hg, hn]
          exact fastFlow_no_discovery _ _ _ _
    · by_cases hcl : inp.clientId = ""
      · simp [preprovision, tenantStep, hb, hcl, failOut]
      · simp [preprovision, tenantStep, hb, hcl, he, hg, hn]
        exact fastFlow_no_discovery _ _ _ _
  · intro inp hag
    by_cases hb : isBlank (inp.store AzdKey.ENTRA_TENANT_ID) = true
    · by_cases hacc : inp.accountTenantId = ""
      · simp [preprovision, tenantStep, hb, hacc, failOut]
      · by_cases hcl : inp.clientId = ""
        · simp [preprovision, tenantStep, hb, hacc, hcl, failOut]
        · by_cases he : isBlank (inp.store AzdKey.AI_AGENT_ENDPOINT) = true <;>
            by_cases hgg : isBlank (inp.store AzdKey.AI_FOUNDRY_RESOURCE_GROUP) = true <;>
              by_cases hnn : isBlank (inp.store AzdKey.AI_FOUNDRY_RESOURCE_NAME) = true <;>
                simp [preprovision, tenantStep, hb, hacc, hcl, he, hgg, hnn] <;>
                first
                  | exact (fastFlow_preserves_agent _ _ _ _ (by simp [hag])).trans
                      (by simp)
                  | exact (discoveryFlow_preserves_agent _ _ _ (by simp [hag])).trans
                      (by simp)
    · by_cases hcl : inp.clientId = ""
      · simp [preprovision, tenantStep, hb, hcl, failOut]
      · by_cases he : isBlank (inp.store AzdKey.AI_AGENT_ENDPOINT) = true <;>
          by_cases hgg : isBlank (inp.store AzdKey.AI_FOUNDRY_RESOURCE_GROUP) = true <;>
            by_cases hnn : isBlank (inp.store AzdKey.AI_FOUNDRY_RESOURCE_NAME) = true <;>
              simp [preprovision, tenantStep, hb, hcl, he, hgg, hnn] <;>
              first
                | exact (fastFlow_preserves_agent _ _ _ _ (by simp [hag])).trans
                    (by simp)
                | exact (discoveryFlow_preserves_agent _ _ _ (by simp [hag])).trans
                    (by simp)
  · intro inp he hg hn hag
    by_cases hb : isBlank (inp.store AzdKey.ENTRA_TENANT_ID) = true <;>
      by_cases hacc : inp.accountTenantId = "" <;>
        by_cases hw1 : inp.writeFails AzdKey.ENTRA_TENANT_ID = true <;>
          by_cases hba : isBlankStr inp.accountTenantId = true <;>
            by_cases hcl : inp.clientId = "" <;>
              by_cases hw2 : inp.writeFails AzdKey.ENTRA_SPA_CLIENT_ID = true <;>
                simp_all [preprovision, tenantStep, fastFlow, failOut, successOut,
                  resolvedConfig]

theorem preprovision_fast_path_idempotent_witness :
    ((preprovision ⟨fun k => match k with
        | AzdKey.AI_AGENT_ENDPOINT => some "https://ep"
        | AzdKey.AI_FOUNDRY_RESOURCE_GROUP => some "rg"
        | AzdKey.AI_FOUNDRY_RESOURCE_NAME => some "rn"
        | AzdKey.AI_AGENT_ID => some "agent1"
        | _ => none,
      fun _ => false, "tid", "cid", [], fun _ => [],
      fun _ => some [⟨"otherAgent"⟩], none, [], [], []⟩).resourceListed = false ∧
     (preprovision ⟨fun k => match k with
        | AzdKey.AI_AGENT_ENDPOINT => some "https://ep"
        | AzdKey.AI_FOUNDRY_RESOURCE_GROUP => some "rg"
        | AzdKey.AI_FOUNDRY_RESOURCE_NAME => some "rn"
        | AzdKey.AI_AGENT_ID => some "agent1"
        | _ => none,
      fun _ => false, "tid", "cid", [], fun _ => [],
      fun _ => some [⟨"otherAgent"⟩], none, [], [], []⟩).projectsListed = false)
    ∧ (preprovision ⟨fun k => match k with
        | AzdKey.AI_AGENT_ENDPOINT => some "https://ep"
        | AzdKey.AI_FOUNDRY_RESOURCE_GROUP => some "rg"
        | AzdKey.AI_FOUNDRY_RESOURCE_NAME => some "rn"
        | AzdKey.AI_AGENT_ID => some "agent1"
        | _ => none,
      fun _ => false, "tid", "cid", [], fun _ => [],
      fun _ => some [⟨"otherAgent"⟩], none, [], [], []⟩).store AzdKey.AI_AGENT_ID =
      Inputs.store ⟨fun k => match k with
        | AzdKey.AI_AGENT_ENDPOINT => some "https://ep"
        | AzdKey.AI_FOUNDRY_RESOURCE_GROUP => some "rg"
        | AzdKey.AI_FOUNDRY_RESOURCE_NAME => some "rn"
        | AzdKey.AI_AGENT_ID => some "agent1"
        | _ => none,
      fun _ => false, "tid", "cid", [], fun _ => [],
      fun _ => some [⟨"otherAgent"⟩], none, [], [], []⟩ AzdKey.AI_AGENT_ID
    ∧ resolvedConfig ((preprovision { (⟨fun k => match k with
        | AzdKey.AI_AGENT_ENDPOINT => some "https://ep"
        | AzdKey.AI_FOUNDRY_RESOURCE_GROUP => some "rg"
        | AzdKey.AI_FOUNDRY_RESOURCE_NAME => some "rn"
        | AzdKey.AI_AGENT_ID => some "agent1"
        | _ => none,
      fun _ => false, "tid", "cid", [], fun _ => [],
      fun _ => some [⟨"otherAgent"⟩], none, [], [], []⟩ : Inputs) with
        store := (preprovision ⟨fun k => match k with
          | AzdKey.AI_AGENT_ENDPOINT => some "https://ep"
          | AzdKey.AI_FOUNDRY_RESOURCE_GROUP => some "rg"
          | AzdKey.AI_FOUNDRY_RESOURCE_NAME => some "rn"
          | AzdKey.AI_AGENT_ID => some "agent1"
          | _ => none,
        fun _ => false, "tid", "cid", [], fun _ => [],
        fun _ => some [⟨"otherAgent"⟩], none, [], [], []⟩).store }).store) =
      resolvedConfig ((preprovision ⟨fun k => match k with
        | AzdKey.AI_AGENT_ENDPOINT => some "https://ep"
        | AzdKey.AI_FOUNDRY_RESOURCE_GROUP => some "rg"
        | AzdKey.AI_FOUNDRY_RESOURCE_NAME => some "rn"
        | AzdKey.AI_AGENT_ID => some "agent1"
        | _ => none,
      fun _ => false, "tid", "cid", [], fun _ => [],
      fun _ => some [⟨"otherAgent"⟩], none, [], [], []⟩).store) :=
  ⟨preprovision_fast_path_idempotent.1 _ (by decide) (by decide) (by decide),
   preprovision_fast_path_idempotent.2.1 _ (by decide),
   preprovision_fast_path_idempotent.2.2 _ (by decide) (by decide) (by decide)
     (by decide)⟩
